import Mathlib

/-!
Shallow embedding of the grafana-node-mongodb user-account service.

The embedded code is `src/controller/users.controller.js` (the five account
operations `CreateUser`, `loginUser`, `logoutUser`, `UpdateUser`, `deleteUser`
and the helper `generateAccessAndRefreshTokens`), the session middleware
`verifyJWT` (`src/middleware/auth.middleware.js`), and the Mongoose user model
(`src/models/users.model.js`).

Modelling conventions:
- A Mongoose user document is `UserDoc`; dates are `Nat` timestamps.
- The user repository (Mongoose `User` model) is a record `UserRepo σ` of
  state-passing functions over an abstract store `σ`, as in spec section 6;
  `listRepo` is the canonical in-memory instance over `List UserDoc`.
- `bcrypt.hash` is modelled as an injective tagging function `hashPassword`
  (the controllers depend only on verify-against-hash semantics), and
  `jwt.sign` as the token builders `generateAccessToken` /
  `generateRefreshToken`; `jwt.verify` is an abstract parameter
  `vf : String → Except String Nat` of the middleware (error value = the
  verification error's message, ok value = the decoded payload's id).
- OpenTelemetry span activity is logged as a list of `SpanEv` events with one
  numeric handle per `tracer.startSpan` call site (allocation order in the
  source); `setAttribute` and `recordException` do not affect start/end
  bookkeeping and are not logged.
- `asyncHandler`'s try/catch/finally shape inside each controller is the
  wrapper `runTraced`: a thrown `ApiError e` becomes
  `res.status(400).json({ error: e.message })` (the controllers' literal
  catch blocks), and the top-level span is ended in `finally`.
- Mongoose `.select("-password -__v")` (and `"-password -refreshToken"`) is
  the projection `selectFields` on the serialized field list of a document.
-/

set_option autoImplicit false

namespace GrafanaNode

/-- JSON-like scalar values appearing in a serialized user document. -/
inductive JVal where
  | s : String → JVal
  | n : Nat → JVal
  | b : Bool → JVal
  | null : JVal
  deriving DecidableEq

/-- A Mongoose user document, after the `userSchema` of
`src/models/users.model.js` (with `_id` and the version key `__v` added by
Mongoose; dates modelled as `Nat`). -/
structure UserDoc where
  _id : Nat
  userName : String
  email : String
  password : String
  lastUpdate : Nat
  registrationDate : Nat
  deletedAt : Option Nat
  isDeleted : Bool
  refreshToken : Option String
  __v : Nat
  deriving DecidableEq

/-- Serialization of a user document as an ordered field list (the JSON body
Mongoose would produce, scalar fields only). -/
def docFields (u : UserDoc) : List (String × JVal) :=
  [("_id", JVal.n u._id),
   ("userName", JVal.s u.userName),
   ("email", JVal.s u.email),
   ("password", JVal.s u.password),
   ("lastUpdate", JVal.n u.lastUpdate),
   ("registrationDate", JVal.n u.registrationDate),
   ("deletedAt", match u.deletedAt with | none => JVal.null | some d => JVal.n d),
   ("isDeleted", JVal.b u.isDeleted),
   ("refreshToken", match u.refreshToken with | none => JVal.null | some t => JVal.s t),
   ("__v", JVal.n u.__v)]

/-- Mongoose `.select("-f1 -f2")`: the document's fields with the excluded
paths removed. -/
def selectFields (excluded : List String) (u : UserDoc) : List (String × JVal) :=
  (docFields u).filter (fun kv => !(excluded.contains kv.1))

/-- JavaScript truthiness test for an optional string field of `req.body`:
`undefined` and the empty string are falsy. -/
def falsyS : Option String → Bool
  | none => true
  | some s => s == ""

/-- Modelled stand-in for `bcrypt.hash` in the `pre("save")` hook of
`users.model.js`: an injective tag, since the controllers depend only on the
fact that verification succeeds exactly against the stored hash. -/
def hashPassword (p : String) : String := "bcrypt$" ++ p

/-- `userSchema.methods.isPasswordCorrect`: `bcrypt.compare(password, this.password)`. -/
def isPasswordCorrect (password stored : String) : Bool :=
  hashPassword password == stored

/-- `userSchema.methods.generateAccessToken`: `jwt.sign` of the id and some
denormalized claims, modelled as a tagged string. -/
def generateAccessToken (u : UserDoc) : String :=
  "access." ++ toString u._id ++ "." ++ u.email

/-- `userSchema.methods.generateRefreshToken`: `jwt.sign` of the id only. -/
def generateRefreshToken (u : UserDoc) : String :=
  "refresh." ++ toString u._id

/-- `ApiError` of `src/utils/ApiError.utils.js` as thrown by the controllers:
a status code and a message. -/
structure ApiError where
  statusCode : Nat
  message : String
  deriving DecidableEq

/-- The `data` slot of an `ApiResponse`: a projected document field list, the
login payload `{ accessToken, user, refreshToken }` (the `user` is a full
document), or `null`. -/
inductive ApiData where
  | docD : List (String × JVal) → ApiData
  | loginD : String → UserDoc → String → ApiData
  | nullD : ApiData
  deriving DecidableEq

/-- A response body: `ApiResponse(statusCode, data, message)` on success or
the catch blocks' `{ error: message }`. -/
inductive Body where
  | apiResponse : Nat → ApiData → String → Body
  | errorJson : String → Body
  deriving DecidableEq

/-- An HTTP response: `res.status(status).json(body)`. -/
structure HttpResp where
  status : Nat
  body : Body
  deriving DecidableEq

/-- A span lifecycle event: `tracer.startSpan` or `span.end()` on the span
with the given handle number. -/
inductive SpanEv where
  | start : Nat → String → SpanEv
  | stop : Nat → SpanEv
  deriving DecidableEq

/-- Number of start events for handle `i` in a span log. -/
def countStarts (evs : List SpanEv) (i : Nat) : Nat :=
  (evs.filter (fun e => match e with | .start j _ => j == i | .stop _ => false)).length

/-- Number of end events for handle `i` in a span log. -/
def countStops (evs : List SpanEv) (i : Nat) : Nat :=
  (evs.filter (fun e => match e with | .start _ _ => false | .stop j => j == i)).length

/-- Every span started in the log is ended exactly once, and no span is ended
more than once. -/
def closedExactlyOnce (evs : List SpanEv) : Bool :=
  evs.all (fun e => match e with
    | .start i _ => countStops evs i == 1
    | .stop i => countStops evs i == 1)

/-- Fields handed to `User.create` by `CreateUser` (plaintext password; the
pre-save hook hashes it inside the repository). -/
structure CreateFields where
  userName : String
  email : String
  password : String
  registrationDate : Nat
  deriving DecidableEq

/-- Fields handed to `User.findByIdAndUpdate` by `UpdateUser`. -/
structure UpdateFields where
  userName : String
  email : String
  lastUpdate : Nat
  deriving DecidableEq

/-- The User Repository collaborator (spec section 6): the Mongoose calls the
controllers make, as state-passing functions over an abstract store `σ`. -/
structure UserRepo (σ : Type) where
  findOne : (UserDoc → Bool) → σ → Option UserDoc × σ
  findById : Nat → σ → Option UserDoc × σ
  create : CreateFields → σ → UserDoc × σ
  save : UserDoc → σ → σ
  findByIdAndUpdate : Nat → UpdateFields → σ → Option UserDoc × σ

/-- Largest id in the store plus one: the fresh id `User.create` assigns in
the list instance. -/
def freshId (db : List UserDoc) : Nat :=
  db.foldr (fun u m => max u._id m) 0 + 1

/-- The canonical in-memory repository over `List UserDoc`.  `create` applies
the pre-save hashing hook and the schema defaults (`isDeleted=false`,
`refreshToken=null`, `deletedAt=null`, `__v=0`); `save` replaces the document
with the same `_id`; `findByIdAndUpdate` updates username, email and
`lastUpdate` and returns the updated document (`{ new: true }`). -/
def listRepo : UserRepo (List UserDoc) where
  findOne := fun p db => (db.find? p, db)
  findById := fun i db => (db.find? (fun u => u._id == i), db)
  create := fun f db =>
    let d : UserDoc :=
      { _id := freshId db, userName := f.userName, email := f.email,
        password := hashPassword f.password, lastUpdate := f.registrationDate,
        registrationDate := f.registrationDate, deletedAt := none,
        isDeleted := false, refreshToken := none, __v := 0 }
    (d, db ++ [d])
  save := fun u db => db.map (fun v => if v._id == u._id then u else v)
  findByIdAndUpdate := fun i f db =>
    match db.find? (fun u => u._id == i) with
    | none => (none, db)
    | some u =>
      let u2 : UserDoc :=
        { u with userName := f.userName, email := f.email, lastUpdate := f.lastUpdate }
      (some u2, db.map (fun v => if v._id == i then u2 else v))

/-- A repository whose `findById` finds nothing: the environment in which the
re-fetch of a just-created account comes back empty. -/
def ghostRepo : UserRepo (List UserDoc) :=
  { listRepo with findById := fun _ db => (none, db) }

/-- The try/catch/finally shell shared by all five controllers: the body's
thrown `ApiError e` is answered by the literal catch block
`res.status(400).json({ error: e.message })`, the top-level span (handle 0)
is started at entry and ended in the `finally` block. -/
def runTraced {σ : Type} (opName : String)
    (body : Except ApiError HttpResp × List SpanEv × σ) :
    HttpResp × List SpanEv × σ :=
  match body with
  | (.ok resp, evs, s) =>
      (resp, SpanEv.start 0 opName :: evs ++ [SpanEv.stop 0], s)
  | (.error e, evs, s) =>
      (⟨400, Body.errorJson e.message⟩, SpanEv.start 0 opName :: evs ++ [SpanEv.stop 0], s)

/-- `generateAccessAndRefreshTokens` (users.controller.js lines 9–22): fetch
the user, sign both tokens, persist the refresh token on the document.  The
only modelled failure of the try block is the fetched user being `null`
(the subsequent method call throws), mapped by the catch block to
`ApiError(500, ...)`. -/
def generateAccessAndRefreshTokens {σ : Type} (R : UserRepo σ) (userID : Nat)
    (s : σ) : Except ApiError (String × String) × σ :=
  match R.findById userID s with
  | (none, s1) => (.error ⟨500, "Error generating access and refresh tokens"⟩, s1)
  | (some user, s1) =>
    let accessToken := generateAccessToken user
    let refreshToken := generateRefreshToken user
    (.ok (accessToken, refreshToken),
     R.save { user with refreshToken := some refreshToken } s1)

/-- Request body of `POST /register`: the destructured `userName`, `email`,
`password` (absent fields are `none`). -/
structure CreateReq where
  userName : Option String
  email : Option String
  password : Option String
  deriving DecidableEq

/-- The try block of `CreateUser` (span handles: 1 = `validate_user_input`,
2 = `create_user_in_db`, 3 = `retrieve_created_user`; the top-level span 0 is
additionally ended inline before the 201 return, source line 66).  The
source's `if (!newUser)` check is dead under the repository interface, whose
`create` always returns a document. -/
def CreateUserTry {σ : Type} (R : UserRepo σ) (req : CreateReq) (now : Nat)
    (s : σ) : Except ApiError HttpResp × List SpanEv × σ :=
  let evs0 := [SpanEv.start 1 "validate_user_input"]
  if falsyS req.userName || falsyS req.email || falsyS req.password then
    (.error ⟨400, "Username, email, and password are required"⟩,
     evs0 ++ [SpanEv.stop 1], s)
  else
    let userName := req.userName.getD ""
    let email := req.email.getD ""
    let password := req.password.getD ""
    let evs1 := evs0 ++ [SpanEv.stop 1]
    match R.findOne (fun u => u.userName == userName || u.email == email) s with
    | (some _, s1) =>
      (.error ⟨400, "User with the given username or email already exists"⟩, evs1, s1)
    | (none, s1) =>
      match R.create ⟨userName, email, password, now⟩ s1 with
      | (newUser, s2) =>
        let evs2 := evs1 ++ [SpanEv.start 2 "create_user_in_db", SpanEv.stop 2,
                             SpanEv.start 3 "retrieve_created_user"]
        match R.findById newUser._id s2 with
        | (none, s3) =>
          (.error ⟨500, "Failed to retrieve created user"⟩, evs2 ++ [SpanEv.stop 3], s3)
        | (some doc, s3) =>
          (.ok ⟨201, Body.apiResponse 201 (ApiData.docD (selectFields ["password", "__v"] doc))
                  "User created successfully"⟩,
           evs2 ++ [SpanEv.stop 3, SpanEv.stop 0], s3)

/-- `CreateUser` controller. -/
def CreateUser {σ : Type} (R : UserRepo σ) (req : CreateReq) (now : Nat)
    (s : σ) : HttpResp × List SpanEv × σ :=
  runTraced "create_user_api" (CreateUserTry R req now s)

/-- Request body of `POST /login`. -/
structure LoginReq where
  email : Option String
  password : Option String
  deriving DecidableEq

/-- The try block of `loginUser` (span handles: 1 = the inner
`login_user_api` span, 2 = `validate_login_input`, 3 = `retrieve_user_for_login`,
4 = `validate_user_password`, 5 = `generate_tokens_for_login`). -/
def loginUserTry {σ : Type} (R : UserRepo σ) (req : LoginReq) (s : σ) :
    Except ApiError HttpResp × List SpanEv × σ :=
  let evs0 := [SpanEv.start 1 "login_user_api", SpanEv.start 2 "validate_login_input"]
  if falsyS req.email || falsyS req.password then
    (.error ⟨400, "Email and password are required"⟩, evs0 ++ [SpanEv.stop 2], s)
  else
    let email := req.email.getD ""
    let password := req.password.getD ""
    let evs1 := evs0 ++ [SpanEv.stop 2, SpanEv.start 3 "retrieve_user_for_login"]
    match R.findOne (fun u => u.email == email) s with
    | (none, s1) =>
      (.error ⟨401, "Invalid email or password"⟩, evs1 ++ [SpanEv.stop 3], s1)
    | (some user, s1) =>
      let evs2 := evs1 ++ [SpanEv.stop 3, SpanEv.start 4 "validate_user_password",
                           SpanEv.stop 4]
      if !(isPasswordCorrect password user.password) then
        (.error ⟨401, "Invalid email or password"⟩, evs2, s1)
      else
        let evs3 := evs2 ++ [SpanEv.start 5 "generate_tokens_for_login"]
        match generateAccessAndRefreshTokens R user._id s1 with
        | (.error e, s2) => (.error e, evs3, s2)
        | (.ok (accessToken, refreshToken), s2) =>
          (.ok ⟨200, Body.apiResponse 200 (ApiData.loginD accessToken user refreshToken)
                  "Login successful"⟩,
           evs3 ++ [SpanEv.stop 5, SpanEv.stop 1], s2)

/-- `loginUser` controller. -/
def loginUser {σ : Type} (R : UserRepo σ) (req : LoginReq) (s : σ) :
    HttpResp × List SpanEv × σ :=
  runTraced "login_user_api" (loginUserTry R req s)

/-- The try block of `logoutUser` (span handles: 1 = inner `logout_user_api`,
2 = `retrieve_user_for_logout`, 3 = `clear_refresh_token`); `userId` is
`req.user._id` set by the middleware. -/
def logoutUserTry {σ : Type} (R : UserRepo σ) (userId : Nat) (s : σ) :
    Except ApiError HttpResp × List SpanEv × σ :=
  let evs0 := [SpanEv.start 1 "logout_user_api", SpanEv.start 2 "retrieve_user_for_logout"]
  match R.findById userId s with
  | (none, s1) => (.error ⟨404, "User not found"⟩, evs0 ++ [SpanEv.stop 2], s1)
  | (some user, s1) =>
    let s2 := R.save { user with refreshToken := none } s1
    (.ok ⟨200, Body.apiResponse 200 ApiData.nullD "Logout successful"⟩,
     evs0 ++ [SpanEv.stop 2, SpanEv.start 3 "clear_refresh_token", SpanEv.stop 3,
              SpanEv.stop 1], s2)

/-- `logoutUser` controller. -/
def logoutUser {σ : Type} (R : UserRepo σ) (userId : Nat) (s : σ) :
    HttpResp × List SpanEv × σ :=
  runTraced "logout_user_api" (logoutUserTry R userId s)

/-- Request of `PUT /update/:id`: the authenticated caller's id
(`req.user._id`), the `:id` path parameter (never read by the controller),
and the body fields. -/
structure UpdateReq where
  userId : Nat
  params_id : String
  userName : Option String
  email : Option String
  deriving DecidableEq

/-- The try block of `UpdateUser` (span handles: 1 = inner `update_user_api`,
2 = `retrieve_user_for_update`, 3 = `validate_update_input`,
4 = `update_user_in_db`).  The source's select string is
`"-password -__v "` (trailing blank), which Mongoose splits to the same two
paths. -/
def UpdateUserTry {σ : Type} (R : UserRepo σ) (req : UpdateReq) (now : Nat)
    (s : σ) : Except ApiError HttpResp × List SpanEv × σ :=
  let evs0 := [SpanEv.start 1 "update_user_api", SpanEv.start 2 "retrieve_user_for_update"]
  match R.findById req.userId s with
  | (none, s1) => (.error ⟨404, "User not found"⟩, evs0 ++ [SpanEv.stop 2], s1)
  | (some _, s1) =>
    let evs1 := evs0 ++ [SpanEv.stop 2, SpanEv.start 3 "validate_update_input"]
    if falsyS req.userName || falsyS req.email then
      (.error ⟨400, "Username and email are required"⟩, evs1 ++ [SpanEv.stop 3], s1)
    else
      let evs2 := evs1 ++ [SpanEv.stop 3, SpanEv.start 4 "update_user_in_db"]
      match R.findByIdAndUpdate req.userId
          ⟨req.userName.getD "", req.email.getD "", now⟩ s1 with
      | (none, s2) =>
        (.error ⟨500, "Failed to update user"⟩, evs2 ++ [SpanEv.stop 4], s2)
      | (some updateUser, s2) =>
        (.ok ⟨200, Body.apiResponse 200
                (ApiData.docD (selectFields ["password", "__v"] updateUser))
                "User updated successfully"⟩,
         evs2 ++ [SpanEv.stop 4, SpanEv.stop 1], s2)

/-- `UpdateUser` controller. -/
def UpdateUser {σ : Type} (R : UserRepo σ) (req : UpdateReq) (now : Nat)
    (s : σ) : HttpResp × List SpanEv × σ :=
  runTraced "update_user_api" (UpdateUserTry R req now s)

/-- Request of `DELETE /delete/:id`: the authenticated caller's id and the
`:id` path parameter (never read by the controller). -/
structure DeleteReq where
  userId : Nat
  params_id : String
  deriving DecidableEq

/-- The try block of `deleteUser` (span handles: 1 = inner `delete_user_api`,
2 = `retrieve_user_for_deletion`, 3 = `mark_user_as_deleted`): soft delete,
setting `isDeleted` and `deletedAt` and saving. -/
def deleteUserTry {σ : Type} (R : UserRepo σ) (req : DeleteReq) (now : Nat)
    (s : σ) : Except ApiError HttpResp × List SpanEv × σ :=
  let evs0 := [SpanEv.start 1 "delete_user_api", SpanEv.start 2 "retrieve_user_for_deletion"]
  match R.findById req.userId s with
  | (none, s1) => (.error ⟨404, "User not found"⟩, evs0 ++ [SpanEv.stop 2], s1)
  | (some user, s1) =>
    let s2 := R.save { user with isDeleted := true, deletedAt := some now } s1
    (.ok ⟨200, Body.apiResponse 200 ApiData.nullD "User deleted successfully"⟩,
     evs0 ++ [SpanEv.stop 2, SpanEv.start 3 "mark_user_as_deleted", SpanEv.stop 3,
              SpanEv.stop 1], s2)

/-- `deleteUser` controller. -/
def deleteUser {σ : Type} (R : UserRepo σ) (req : DeleteReq) (now : Nat)
    (s : σ) : HttpResp × List SpanEv × σ :=
  runTraced "delete_user_api" (deleteUserTry R req now s)

/-- Replace the first occurrence of `pat` in a character list by `repl`. -/
def replacePat : List Char → List Char → List Char → List Char
  | [], _, _ => []
  | c :: cs, pat, repl =>
    if (c :: cs).take pat.length = pat then repl ++ (c :: cs).drop pat.length
    else c :: replacePat cs pat repl

/-- JavaScript `String.prototype.replace` with a string pattern: replace the
first occurrence only. -/
def replaceFirst (s pat repl : String) : String :=
  ⟨replacePat s.data pat.data repl.data⟩

/-- JavaScript `a || b` on optional strings: `a` unless it is absent or
empty. -/
def jsOrStr : Option String → Option String → Option String
  | none, b => b
  | some s, b => if s == "" then b else some s

/-- Request seen by the middleware: the `accessToken` cookie and the
`Authorization` header. -/
structure AuthReq where
  cookieAccessToken : Option String
  authorizationHeader : Option String
  deriving DecidableEq

/-- The token `verifyJWT` extracts:
`req.cookies?.accessToken || req.header("Authorization")?.replace("Bearer ", "")`,
normalized to `none` when the result is falsy (the `if(!token)` check). -/
def tokenOf (req : AuthReq) : Option String :=
  match jsOrStr req.cookieAccessToken
      (req.authorizationHeader.map (fun h => replaceFirst h "Bearer " "")) with
  | none => none
  | some t => if t == "" then none else some t

/-- `verifyJWT` middleware (`src/middleware/auth.middleware.js`): missing
token → `ApiError(401, "Unauthorized")` (no verification attempted);
verification failure → the outer catch's
`ApiError(401, error?.message || "Invalid Access Token")`; account absent →
`ApiError(401, "Invalid access Token")`; otherwise the resolved account with
`-password -refreshToken` selected is exposed as `req.user`.  `vf` is the
`jwt.verify` collaborator. -/
def verifyJWT {σ : Type} (R : UserRepo σ) (vf : String → Except String Nat)
    (req : AuthReq) (s : σ) : Except ApiError (List (String × JVal)) × σ :=
  match tokenOf req with
  | none => (.error ⟨401, "Unauthorized"⟩, s)
  | some token =>
    match vf token with
    | .error m => (.error ⟨401, if m == "" then "Invalid Access Token" else m⟩, s)
    | .ok i =>
      match R.findById i s with
      | (none, s1) => (.error ⟨401, "Invalid access Token"⟩, s1)
      | (some u, s1) => (.ok (selectFields ["password", "refreshToken"] u), s1)

/-- The `user` object embedded in a login response body, when there is one. -/
def embeddedUser : HttpResp → Option UserDoc
  | ⟨_, Body.apiResponse _ (ApiData.loginD _ u _) _⟩ => some u
  | _ => none

/-- A concrete stored account used in concrete runs: "alice", registered with
password "secret1", not deleted, no refresh token. -/
def alice : UserDoc :=
  { _id := 1, userName := "alice", email := "a@x.com",
    password := hashPassword "secret1", lastUpdate := 0, registrationDate := 0,
    deletedAt := none, isDeleted := false, refreshToken := none, __v := 0 }

/-- "alice" after the soft delete: `isDeleted = true`, `deletedAt` set. -/
def aliceDeleted : UserDoc :=
  { alice with isDeleted := true, deletedAt := some 5 }

/-- A second stored account with a different id, for frame conditions. -/
def bob : UserDoc :=
  { _id := 2, userName := "bob", email := "b@x.com",
    password := hashPassword "pw2", lastUpdate := 0, registrationDate := 0,
    deletedAt := none, isDeleted := false, refreshToken := none, __v := 0 }

/-- The document `listRepo.create` builds for the witness create request. -/
def bobCreated : UserDoc :=
  { _id := 1, userName := "bob", email := "b@x.com",
    password := hashPassword "pw1", lastUpdate := 0, registrationDate := 0,
    deletedAt := none, isDeleted := false, refreshToken := none, __v := 0 }

/-- A concrete `jwt.verify` collaborator for witnesses: accepts exactly the
token "tok.1" as account id 1. -/
def vfEx (t : String) : Except String Nat :=
  if t == "tok.1" then .ok 1 else .error "invalid signature"

/-- C1: the claim that during every account operation each started span is
ended exactly once on every exit path fails on the code: a login attempt for
an unknown email leaves the inner `login_user_api` span (handle 1) started
but never ended, and a successful create ends the top-level span (handle 0)
twice (once inline before the 201 return and once in `finally`). -/
theorem c1_spans_not_closed_exactly_once :
    closedExactlyOnce (loginUser listRepo ⟨some "b@x.com", some "secret1"⟩ [alice]).2.1 = false ∧
    countStarts (loginUser listRepo ⟨some "b@x.com", some "secret1"⟩ [alice]).2.1 1 = 1 ∧
    countStops (loginUser listRepo ⟨some "b@x.com", some "secret1"⟩ [alice]).2.1 1 = 0 ∧
    countStops (CreateUser listRepo ⟨some "bob", some "b@x.com", some "pw1"⟩ 0 []).2.1 0 = 2 := by
  decide

/-- C2: a wrong-password attempt and an unknown-email attempt produce
responses identical in shape and message (the generic
"Invalid email or password", no account data), as claimed, but the HTTP
status is 400 — the controllers' catch block hard-codes `res.status(400)` —
while the claimed 401 appears only in the thrown `ApiError`. -/
theorem c2_login_failures_identical_but_status_400 :
    (loginUser listRepo ⟨some "a@x.com", some "wrong"⟩ [alice]).1 =
      (loginUser listRepo ⟨some "b@x.com", some "secret1"⟩ [alice]).1 ∧
    (loginUser listRepo ⟨some "a@x.com", some "wrong"⟩ [alice]).1 =
      ⟨400, Body.errorJson "Invalid email or password"⟩ ∧
    (loginUserTry listRepo ⟨some "a@x.com", some "wrong"⟩ [alice]).1 =
      .error ⟨401, "Invalid email or password"⟩ ∧
    (loginUserTry listRepo ⟨some "b@x.com", some "secret1"⟩ [alice]).1 =
      .error ⟨401, "Invalid email or password"⟩ :=
  ⟨rfl, rfl, rfl, rfl⟩

/-- C3: when the re-fetch of the newly created account returns nothing, the
operation does throw `ApiError(500, ...)` (an `InternalError`), but the HTTP
response produced by the catch block has status 400, not the claimed 500. -/
theorem c3_refetch_empty_internal_error_http_400 :
    (CreateUserTry ghostRepo ⟨some "alice", some "a@x.com", some "secret1"⟩ 0 []).1 =
      .error ⟨500, "Failed to retrieve created user"⟩ ∧
    (CreateUser ghostRepo ⟨some "alice", some "a@x.com", some "secret1"⟩ 0 []).1 =
      ⟨400, Body.errorJson "Failed to retrieve created user"⟩ :=
  ⟨rfl, rfl⟩

/-- C4: a soft-deleted account is not excluded from anything: with
`isDeleted = true` it can still log in (200, the account embedded in the
response), it still passes the session middleware, and logout and update
still act on it (update really mutates the deleted account's stored
document). -/
theorem c4_soft_deleted_account_not_excluded :
    (loginUser listRepo ⟨some "a@x.com", some "secret1"⟩ [aliceDeleted]).1.status = 200 ∧
    embeddedUser (loginUser listRepo ⟨some "a@x.com", some "secret1"⟩ [aliceDeleted]).1 =
      some aliceDeleted ∧
    (verifyJWT listRepo vfEx ⟨some "tok.1", none⟩ [aliceDeleted]).1 =
      .ok (selectFields ["password", "refreshToken"] aliceDeleted) ∧
    (logoutUser listRepo 1 [aliceDeleted]).1.status = 200 ∧
    (UpdateUser listRepo ⟨1, "1", some "alice2", some "a2@x.com"⟩ 9 [aliceDeleted]).1.status = 200 ∧
    (UpdateUser listRepo ⟨1, "1", some "alice2", some "a2@x.com"⟩ 9 [aliceDeleted]).2.2 =
      [{ aliceDeleted with userName := "alice2", email := "a2@x.com", lastUpdate := 9 }] :=
  ⟨rfl, rfl, rfl, rfl, rfl, rfl⟩

/-- C5: when the authenticated caller's account no longer exists at the
fetch step, logout, update and delete all throw `ApiError(404, "User not
found")` (a `NotFound`), but the catch block answers with HTTP status 400,
not the claimed 404. -/
theorem c5_vanished_account_http_400_not_404 :
    (logoutUserTry listRepo 2 [alice]).1 = .error ⟨404, "User not found"⟩ ∧
    (logoutUser listRepo 2 [alice]).1 = ⟨400, Body.errorJson "User not found"⟩ ∧
    (UpdateUserTry listRepo ⟨2, "2", some "x", some "y@z.com"⟩ 0 [alice]).1 =
      .error ⟨404, "User not found"⟩ ∧
    (UpdateUser listRepo ⟨2, "2", some "x", some "y@z.com"⟩ 0 [alice]).1 =
      ⟨400, Body.errorJson "User not found"⟩ ∧
    (deleteUserTry listRepo ⟨2, "2"⟩ 0 [alice]).1 = .error ⟨404, "User not found"⟩ ∧
    (deleteUser listRepo ⟨2, "2"⟩ 0 [alice]).1 = ⟨400, Body.errorJson "User not found"⟩ :=
  ⟨rfl, rfl, rfl, rfl, rfl, rfl⟩

/-- C6: for every create request that passes validation and the duplicate
check and whose re-fetch returns a document, the 201 response's account
payload is that document with `password` and `__v` selected out, so it
contains neither a password field nor the internal versioning field. -/
theorem c6_create_response_redacts_secret_fields {σ : Type} (R : UserRepo σ)
    (req : CreateReq) (now : Nat) (s s1 s2 s3 : σ) (newUser doc : UserDoc)
    (hU : falsyS req.userName = false) (hE : falsyS req.email = false)
    (hP : falsyS req.password = false)
    (hDup : R.findOne
      (fun u => u.userName == req.userName.getD "" || u.email == req.email.getD "") s = (none, s1))
    (hCreate : R.create ⟨req.userName.getD "", req.email.getD "", req.password.getD "", now⟩ s1 =
      (newUser, s2))
    (hFetch : R.findById newUser._id s2 = (some doc, s3)) :
    (CreateUser R req now s).1 =
      ⟨201, Body.apiResponse 201 (ApiData.docD (selectFields ["password", "__v"] doc))
        "User created successfully"⟩ ∧
    (selectFields ["password", "__v"] doc).lookup "password" = none ∧
    (selectFields ["password", "__v"] doc).lookup "__v" = none := by
  refine ⟨?_, rfl, rfl⟩
  simp [CreateUser, CreateUserTry, runTraced, hU, hE, hP, hDup, hCreate, hFetch]

/-- C6 witness: creating "bob" in an empty store yields the 201 response on
the projected document, without password or version fields. -/
theorem c6_witness :
    (CreateUser listRepo ⟨some "bob", some "b@x.com", some "pw1"⟩ 0 []).1 =
      ⟨201, Body.apiResponse 201 (ApiData.docD (selectFields ["password", "__v"] bobCreated))
        "User created successfully"⟩ ∧
    (selectFields ["password", "__v"] bobCreated).lookup "password" = none ∧
    (selectFields ["password", "__v"] bobCreated).lookup "__v" = none :=
  c6_create_response_redacts_secret_fields listRepo ⟨some "bob", some "b@x.com", some "pw1"⟩ 0
    [] [] [bobCreated] [bobCreated] bobCreated bobCreated rfl rfl rfl rfl rfl rfl

/-- C7: the session middleware fails with an `ApiError` of status 401 when
the token is missing (for every verifier, i.e. without attempting
verification), when verification fails (message forwarded), and when the
account resolved from the token's id does not exist; on success it exposes
the resolved account with the password and refresh-token fields selected
out. -/
theorem c7_verifyJWT_contract {σ : Type} (R : UserRepo σ)
    (vf : String → Except String Nat) (req : AuthReq) (s : σ) :
    (tokenOf req = none → verifyJWT R vf req s = (.error ⟨401, "Unauthorized"⟩, s)) ∧
    (∀ t m, tokenOf req = some t → vf t = .error m →
      verifyJWT R vf req s = (.error ⟨401, if m == "" then "Invalid Access Token" else m⟩, s)) ∧
    (∀ t i s1, tokenOf req = some t → vf t = .ok i → R.findById i s = (none, s1) →
      verifyJWT R vf req s = (.error ⟨401, "Invalid access Token"⟩, s1)) ∧
    (∀ t i u s1, tokenOf req = some t → vf t = .ok i → R.findById i s = (some u, s1) →
      verifyJWT R vf req s = (.ok (selectFields ["password", "refreshToken"] u), s1) ∧
      (selectFields ["password", "refreshToken"] u).lookup "password" = none ∧
      (selectFields ["password", "refreshToken"] u).lookup "refreshToken" = none) := by
  refine ⟨fun h => ?_, fun t m h1 h2 => ?_, fun t i s1 h1 h2 h3 => ?_,
    fun t i u s1 h1 h2 h3 => ⟨?_, rfl, rfl⟩⟩
  · simp [verifyJWT, h]
  · simp [verifyJWT, h1, h2]
  · simp [verifyJWT, h1, h2, h3]
  · simp [verifyJWT, h1, h2, h3]

/-- C7 witness: the four middleware outcomes at concrete inputs — missing
token, failing verification, unknown account id, and success through the
`Authorization: Bearer` header. -/
theorem c7_witness :
    verifyJWT listRepo vfEx ⟨none, none⟩ [alice] = (.error ⟨401, "Unauthorized"⟩, [alice]) ∧
    verifyJWT listRepo vfEx ⟨some "garbage", none⟩ [alice] =
      (.error ⟨401, "invalid signature"⟩, [alice]) ∧
    verifyJWT listRepo vfEx ⟨some "tok.1", none⟩ [] =
      (.error ⟨401, "Invalid access Token"⟩, []) ∧
    verifyJWT listRepo vfEx ⟨none, some "Bearer tok.1"⟩ [alice] =
      (.ok (selectFields ["password", "refreshToken"] alice), [alice]) := by
  refine ⟨(c7_verifyJWT_contract listRepo vfEx ⟨none, none⟩ [alice]).1 rfl, ?_, ?_, ?_⟩
  · have h := (c7_verifyJWT_contract listRepo vfEx ⟨some "garbage", none⟩ [alice]).2.1
      "garbage" "invalid signature" rfl rfl
    simpa using h
  · exact (c7_verifyJWT_contract listRepo vfEx ⟨some "tok.1", none⟩ []).2.2.1 "tok.1" 1 [] rfl rfl rfl
  · exact ((c7_verifyJWT_contract listRepo vfEx ⟨none, some "Bearer tok.1"⟩ [alice]).2.2.2
      "tok.1" 1 alice [alice] rfl rfl rfl).1

/-- C8: an authenticated update whose body is missing the email field (or
the username field), for a caller whose account exists, fails with
`ApiError(400, ...)` (an `InvalidInput`), the HTTP response has status 400,
and the store is left unchanged. -/
theorem c8_update_missing_field_invalid_input_unchanged (db : List UserDoc)
    (uid : Nat) (p : String) (un em : Option String) (now : Nat) (u : UserDoc)
    (hFind : db.find? (fun v => v._id == uid) = some u)
    (hMissing : un = none ∨ em = none) :
    (UpdateUserTry listRepo ⟨uid, p, un, em⟩ now db).1 =
      .error ⟨400, "Username and email are required"⟩ ∧
    (UpdateUser listRepo ⟨uid, p, un, em⟩ now db).1 =
      ⟨400, Body.errorJson "Username and email are required"⟩ ∧
    (UpdateUser listRepo ⟨uid, p, un, em⟩ now db).2.2 = db := by
  have hf : (falsyS un || falsyS em) = true := by
    rcases hMissing with h | h <;> subst h <;> simp [falsyS]
  refine ⟨?_, ?_, ?_⟩ <;> simp [UpdateUser, UpdateUserTry, runTraced, listRepo, hFind, hf]

/-- C8 witness: updating "alice" without an email field answers 400 with the
validation message and leaves the store as it was. -/
theorem c8_witness :
    (UpdateUserTry listRepo ⟨1, "7", some "x", none⟩ 3 [alice]).1 =
      .error ⟨400, "Username and email are required"⟩ ∧
    (UpdateUser listRepo ⟨1, "7", some "x", none⟩ 3 [alice]).1 =
      ⟨400, Body.errorJson "Username and email are required"⟩ ∧
    (UpdateUser listRepo ⟨1, "7", some "x", none⟩ 3 [alice]).2.2 = [alice] :=
  c8_update_missing_field_invalid_input_unchanged [alice] 1 "7" (some "x") none 3 alice rfl
    (Or.inr rfl)

/-- C9 counterexample: after a successful login of "alice" (whose stored
refresh token was null), the store holds the newly persisted refresh token,
but the user object embedded in the 200 response still has the fetch-time
null refresh-token field — so the response does not include the newly
persisted refresh token, refuting that part of the claim. -/
theorem c9_counterexample :
    (embeddedUser (loginUser listRepo ⟨some "a@x.com", some "secret1"⟩ [alice]).1).map
      (fun u => u.refreshToken) = some none ∧
    (loginUser listRepo ⟨some "a@x.com", some "secret1"⟩ [alice]).2.2 =
      [{ alice with refreshToken := some (generateRefreshToken alice) }] ∧
    some (generateRefreshToken alice) ≠ (none : Option String) :=
  ⟨rfl, rfl, by simp⟩

/-- C9 (amended): for every successful login, the 200 response embeds the
user document exactly as fetched, with no field exclusion — so it includes
the stored password hash — and its refresh-token field holds the fetch-time
value, not the newly persisted refresh token. -/
theorem c9_login_embeds_fetchtime_user {σ : Type} (R : UserRepo σ)
    (req : LoginReq) (s s1 s2 : σ) (u : UserDoc) (a r : String)
    (hE : falsyS req.email = false) (hP : falsyS req.password = false)
    (hFind : R.findOne (fun v => v.email == req.email.getD "") s = (some u, s1))
    (hPw : isPasswordCorrect (req.password.getD "") u.password = true)
    (hTok : generateAccessAndRefreshTokens R u._id s1 = (.ok (a, r), s2)) :
    (loginUser R req s).1 =
      ⟨200, Body.apiResponse 200 (ApiData.loginD a u r) "Login successful"⟩ ∧
    embeddedUser (loginUser R req s).1 = some u := by
  have hrun : (loginUser R req s).1 =
      ⟨200, Body.apiResponse 200 (ApiData.loginD a u r) "Login successful"⟩ := by
    simp [loginUser, loginUserTry, runTraced, hE, hP, hFind, hPw, hTok]
  exact ⟨hrun, by rw [hrun]; rfl⟩

/-- C9 witness: logging "alice" in embeds the fetched document (with its
stored hash and null refresh token) in the 200 response. -/
theorem c9_witness :
    (loginUser listRepo ⟨some "a@x.com", some "secret1"⟩ [alice]).1 =
      ⟨200, Body.apiResponse 200
        (ApiData.loginD (generateAccessToken alice) alice (generateRefreshToken alice))
        "Login successful"⟩ ∧
    embeddedUser (loginUser listRepo ⟨some "a@x.com", some "secret1"⟩ [alice]).1 = some alice :=
  c9_login_embeds_fetchtime_user listRepo ⟨some "a@x.com", some "secret1"⟩ [alice] [alice]
    [{ alice with refreshToken := some (generateRefreshToken alice) }] alice
    (generateAccessToken alice) (generateRefreshToken alice) rfl rfl rfl rfl rfl

/-- C10: update and delete act on the account identified by the
authenticated caller's id: the `:id` path parameter is never read (both
controllers give identical results for any two parameter values, over any
repository), and in the list store every account whose id differs from the
caller's is untouched. -/
theorem c10_ops_use_caller_id_ignore_path_param {σ : Type} (R : UserRepo σ)
    (s : σ) (uid : Nat) (p p2 : String) (un em : Option String) (now : Nat)
    (db : List UserDoc) :
    UpdateUser R ⟨uid, p, un, em⟩ now s = UpdateUser R ⟨uid, p2, un, em⟩ now s ∧
    deleteUser R ⟨uid, p⟩ now s = deleteUser R ⟨uid, p2⟩ now s ∧
    (∀ v, v ∈ db → ¬ v._id = uid →
      v ∈ (UpdateUser listRepo ⟨uid, p, un, em⟩ now db).2.2) ∧
    (∀ v, v ∈ db → ¬ v._id = uid →
      v ∈ (deleteUser listRepo ⟨uid, p⟩ now db).2.2) := by
  refine ⟨rfl, rfl, fun v hv hne => ?_, fun v hv hne => ?_⟩
  · rcases hfind : db.find? (fun u => u._id == uid) with _ | u0
    · simpa [UpdateUser, UpdateUserTry, runTraced, listRepo, hfind] using hv
    · cases hval : (falsyS un || falsyS em) with
      | true => simpa [UpdateUser, UpdateUserTry, runTraced, listRepo, hfind, hval] using hv
      | false =>
        simp [UpdateUser, UpdateUserTry, runTraced, listRepo, hfind, hval]
        exact ⟨v, hv, by simp [hne]⟩
  · rcases hfind : db.find? (fun u => u._id == uid) with _ | u0
    · simpa [deleteUser, deleteUserTry, runTraced, listRepo, hfind] using hv
    · have hid : u0._id = uid := by
        have h := List.find?_some hfind
        simpa using h
      simp [deleteUser, deleteUserTry, runTraced, listRepo, hfind, hid]
      exact ⟨v, hv, by simp [hne]⟩

/-- C10 witness: updating or deleting as caller 1 gives the same result for
two different path parameters, and "bob" (id 2) stays in the store. -/
theorem c10_witness :
    UpdateUser listRepo ⟨1, "77", some "x", some "y"⟩ 0 [alice, bob] =
      UpdateUser listRepo ⟨1, "99", some "x", some "y"⟩ 0 [alice, bob] ∧
    deleteUser listRepo ⟨1, "77"⟩ 0 [alice, bob] = deleteUser listRepo ⟨1, "99"⟩ 0 [alice, bob] ∧
    bob ∈ (UpdateUser listRepo ⟨1, "77", some "x", some "y"⟩ 0 [alice, bob]).2.2 ∧
    bob ∈ (deleteUser listRepo ⟨1, "77"⟩ 0 [alice, bob]).2.2 := by
  refine ⟨(c10_ops_use_caller_id_ignore_path_param listRepo [alice, bob] 1 "77" "99"
      (some "x") (some "y") 0 [alice, bob]).1,
    (c10_ops_use_caller_id_ignore_path_param listRepo [alice, bob] 1 "77" "99"
      (some "x") (some "y") 0 [alice, bob]).2.1,
    (c10_ops_use_caller_id_ignore_path_param listRepo [alice, bob] 1 "77" "99"
      (some "x") (some "y") 0 [alice, bob]).2.2.1 bob (by decide) (by decide),
    (c10_ops_use_caller_id_ignore_path_param listRepo [alice, bob] 1 "77" "99"
      (some "x") (some "y") 0 [alice, bob]).2.2.2 bob (by decide) (by decide)⟩

end GrafanaNode
